import Mathlib

/-!
Shallow embedding of `ci/scripts/regression_detector.py` (the performance
regression detection engine): the SQLite-backed metric store, the median
baseline calculator, the threshold-based regression classifier, the report
generator, and the `main` driver.

Modelling conventions:
* Python numbers (ints and floats) are modelled as exact rationals `ℚ`.
* JSON payload values are modelled by `JVal`; Python's
  `isinstance(value, (int, float))` is true for `bool` as well, which `JVal.isNumeric`
  mirrors, and `float(True) = 1.0`, `float(False) = 0.0`, which `JVal.toRealVal` mirrors.
* The SQLite tables `benchmarks` and `metrics` are lists of rows.  `INSERT OR
  REPLACE` deletes the conflicting row and inserts a fresh row whose rowid is
  one more than the largest rowid in use (rowids are never reused), modelled by
  the strictly increasing `nextId` counter.
* `time.time()` timestamps are modelled by a strictly increasing clock counter,
  following the data model's "monotonic wall-clock at ingestion".
* A raised Python exception is modelled by `Except.error`.
-/

attribute [local semireducible] Rat.add Rat.mul Rat.inv Rat.sub

set_option maxRecDepth 8192

/-- A JSON payload value as seen by the detector. -/
inductive JVal where
  | num (q : ℚ)
  | bool (b : Bool)
  | str (s : String)
  | null
deriving DecidableEq

/-- Python `isinstance(value, (int, float))`: true for numbers and for booleans
(`bool` is a subclass of `int` in Python). -/
def JVal.isNumeric : JVal → Bool
  | .num _ => true
  | .bool _ => true
  | _ => false

/-- Python `float(value)` on a numeric value: identity on numbers, 1.0 / 0.0 on
booleans.  Only ever applied to values with `isNumeric = true`. -/
def JVal.toRealVal : JVal → ℚ
  | .num q => q
  | .bool b => if b then 1 else 0
  | _ => 0

/-- A regression finding, the dict appended to `regressions` in
`check_regression` (keys `test`, `metric`, `baseline`, `new`, `regression_pct`). -/
structure Finding where
  test : String
  metric : String
  baseline : ℚ
  new : ℚ
  regression_pct : ℚ
deriving DecidableEq

deriving instance DecidableEq for Except

/-- Round a rational to the nearest integer, ties to even (the rounding used by
Python's fixed-point formatting, idealised to exact rationals). -/
def roundHalfEven (q : ℚ) : ℤ :=
  let fl : ℤ := q.floor
  let r : ℚ := q - fl
  if r < 1/2 then fl
  else if 1/2 < r then fl + 1
  else if fl % 2 = 0 then fl else fl + 1

/-- Left-pad a string with zeros to width `w`. -/
def padZeros (w : Nat) (s : String) : String :=
  String.mk (List.replicate (w - s.length) '0') ++ s

/-- Python's fixed-point format `f"{x:.precf}"`, idealised to exact rationals. -/
def fmtFixed (x : ℚ) (prec : Nat) : String :=
  let scale : ℚ := (10 : ℚ) ^ prec
  let ax : ℚ := if x < 0 then -x else x
  let m : Nat := (roundHalfEven (ax * scale)).toNat
  let ip : Nat := m / 10 ^ prec
  let fp : Nat := m % 10 ^ prec
  (if x < 0 then "-" else "") ++ toString ip ++
    (if prec = 0 then "" else "." ++ padZeros prec (toString fp))

/-- Python `statistics.median`: sort ascending; odd count takes the middle
element, even count averages the two middle elements.  (Callers guard against
the empty list, on which `statistics.median` raises.) -/
def median (l : List ℚ) : ℚ :=
  let s := l.insertionSort (· ≤ ·)
  let n := s.length
  if n % 2 = 1 then s.getD (n / 2) 0
  else (s.getD (n / 2 - 1) 0 + s.getD (n / 2) 0) / 2

/-- Lines 72–75 of `get_baseline`, as the pure baseline calculator of §4.2:
`None` on an empty history, otherwise the median. -/
def baselineOf (values : List ℚ) : Option ℚ :=
  if values.isEmpty then none else some (median values)

/-- The single-metric classification step inside the loop of
`check_regression` (lines 91–99): flag iff `new_value > baseline * (1 + threshold)`;
the reported delta `(new_value - baseline) / baseline` raises `ZeroDivisionError`
when `baseline` is zero. -/
def classifyOne (test metric : String) (baseline newValue threshold : ℚ) :
    Except String (Option Finding) :=
  if newValue > baseline * (1 + threshold) then
    if baseline = 0 then .error "ZeroDivisionError"
    else .ok (some ⟨test, metric, baseline, newValue,
      (newValue - baseline) / baseline * 100⟩)
  else .ok none

/-- A row of the `benchmarks` table: `(id, test_name, commit_hash, timestamp,
metrics_json)` with `UNIQUE(test_name, commit_hash)`. -/
structure BenchRow where
  id : Nat
  test_name : String
  commit_hash : String
  timestamp : Nat
  metrics_json : List (String × JVal)
deriving DecidableEq

/-- A row of the `metrics` table: `(benchmark_id, metric_name, value)`
(the `unit` column is always NULL in this code). -/
structure MetricRow where
  benchmark_id : Nat
  metric_name : String
  value : ℚ
deriving DecidableEq

/-- The SQLite database state: both tables plus the rowid allocator and the
ingestion clock. -/
structure DB where
  benchmarks : List BenchRow
  metrics : List MetricRow
  nextId : Nat
  clock : Nat
deriving DecidableEq

/-- A freshly created database (`DB_SCHEMA` applied to an empty file). -/
def initDB : DB := ⟨[], [], 1, 0⟩

/-- The metric rows written for one payload by `add_measurement`: one row per
numeric entry, in payload iteration order, with `float(value)` applied. -/
def numericSamples (benchId : Nat) (payload : List (String × JVal)) : List MetricRow :=
  (payload.filter (fun p => p.2.isNumeric)).map
    (fun p => ⟨benchId, p.1, p.2.toRealVal⟩)

/-- `add_measurement` (lines 42–60): `INSERT OR REPLACE` into `benchmarks`
(deleting any row with the same `(test_name, commit_hash)` and inserting a
fresh row with a fresh rowid), then one `metrics` insert per numeric payload
entry, linked to the fresh rowid via `cursor.lastrowid`. -/
def add_measurement (db : DB) (test commit : String) (payload : List (String × JVal)) : DB :=
  let kept := db.benchmarks.filter
    (fun r => !(r.test_name == test && r.commit_hash == commit))
  { benchmarks := kept ++ [⟨db.nextId, test, commit, db.clock, payload⟩]
    metrics := db.metrics ++ numericSamples db.nextId payload
    nextId := db.nextId + 1
    clock := db.clock + 1 }

/-- The relational join of `get_baseline`'s SELECT, before ordering:
`metrics JOIN benchmarks ON metrics.benchmark_id = benchmarks.id
WHERE test_name = ? AND metric_name = ?`, producing `(timestamp, value)` pairs. -/
def joinRows (db : DB) (test metric : String) : List (Nat × ℚ) :=
  (db.metrics.filter (fun m => m.metric_name == metric)).flatMap
    (fun m => (db.benchmarks.filter
        (fun b => b.id == m.benchmark_id && b.test_name == test)).map
      (fun b => (b.timestamp, m.value)))

/-- Descending-timestamp order on joined `(timestamp, value)` rows
(`ORDER BY timestamp DESC`). -/
def descTs (a b : Nat × ℚ) : Prop := b.1 ≤ a.1

instance : DecidableRel descTs := fun a b => Nat.decLe b.1 a.1

/-- The SELECT of `get_baseline` (lines 64–70): the joined rows ordered by
descending timestamp, limited to `window` rows.  SQLite leaves the order of
rows sharing a timestamp unspecified; the sort fixes one
deterministic refinement of that. -/
def historyRows (db : DB) (test metric : String) (window : Nat) : List (Nat × ℚ) :=
  ((joinRows db test metric).insertionSort descTs).take window

/-- `get_baseline` (lines 62–75): the median of the `window` most recent
values, `None` when there are none. -/
def get_baseline (db : DB) (test metric : String) (window : Nat) : Option ℚ :=
  baselineOf ((historyRows db test metric window).map Prod.snd)

/-- The loop of `check_regression` (lines 81–99): skip non-numeric values and
metrics without a baseline (window 5, the call site uses the default), classify
the rest, accumulating findings in payload order; a raised `ZeroDivisionError`
discards the findings accumulated so far and propagates. -/
def checkLoop (db : DB) (test : String) (threshold : ℚ) :
    List (String × JVal) → Except String (List Finding)
  | [] => .ok []
  | (name, v) :: rest =>
    if v.isNumeric then
      match get_baseline db test name 5 with
      | none => checkLoop db test threshold rest
      | some b =>
        match classifyOne test name b v.toRealVal threshold with
        | .error e => .error e
        | .ok none => checkLoop db test threshold rest
        | .ok (some f) => (checkLoop db test threshold rest).map (f :: ·)
  else checkLoop db test threshold rest

/-- `check_regression` (lines 77–101). -/
def check_regression (db : DB) (test : String) (payload : List (String × JVal))
    (threshold : ℚ) : Except String (List Finding) :=
  checkLoop db test threshold payload

/-- The success marker written by `generate_report` for an empty findings list. -/
def successMarker : String := "# ✅ No Performance Regressions Detected\n"

/-- The header written by `generate_report` before the table rows. -/
def reportHeader : String :=
  "# ❌ Performance Regressions Detected\n\n" ++
  "| Test | Metric | Baseline | New | Regression |\n" ++
  "|------|--------|----------|-----|------------|\n"

/-- The literal failure marker token appended after the rows
(the comment in the source: marker for CI to fail). -/
def failureMarker : String := "\n**REGRESSION**"

/-- One table row of the report (line 115–116): baseline and new value with 3
decimal places, the percentage delta with 1 decimal place behind a literal `+`. -/
def reportRow (r : Finding) : String :=
  "| " ++ r.test ++ " | " ++ r.metric ++ " | " ++ fmtFixed r.baseline 3 ++ " | " ++
    fmtFixed r.new 3 ++ " | +" ++ fmtFixed r.regression_pct 1 ++ "% |\n"

/-- `generate_report` (lines 103–118), as the string written to the output
file: the success marker for an empty list, otherwise header, one row per
finding in list order, and the failure marker. -/
def generate_report (regressions : List Finding) : String :=
  if regressions.isEmpty then successMarker
  else reportHeader ++ String.join (regressions.map reportRow) ++ failureMarker

/-- One entry of the `benchmarks` array of a Google-Benchmark-shaped artifact.
`entry['name']` raises `KeyError` when absent (hence `Option`); the three
metric fields default to the number 0 when absent. -/
structure GoogleEntry where
  name : Option String
  real_time : Option JVal
  cpu_time : Option JVal
  iterations : Option JVal

/-- The parse result of one input artifact.  `parseFailure` covers only the
failures raised before any database call: an unreadable file, invalid JSON, a
top-level value that is not a dict, or a `benchmarks` value that is not a list
of dicts.  A custom-shape artifact whose `metrics` value is not a dict is
`customBadMetrics`: there the source does reach `add_measurement`, which
executes the benchmarks `INSERT OR REPLACE` (deleting any prior record for the
pair) and only then raises `AttributeError` at `metrics.items()`, before any
metric sample is written; the raw value's JSON dump lands in the inert,
never-read `metrics_json` column, abstracted here to the empty payload. -/
inductive Shape where
  | parseFailure (msg : String)
  | googleBench (entries : List GoogleEntry)
  | custom (testName : Option String) (metrics : List (String × JVal))
  | customBadMetrics (testName : Option String) (msg : String)

/-- One input artifact: its path, its base filename without suffix
(`json_file.stem`, the fallback test name for the custom shape), and its parsed
shape. -/
structure Artifact where
  path : String
  stem : String
  shape : Shape

/-- The canonical metrics map built for a Google-Benchmark entry (lines
153–157): `real_time`, `cpu_time`, `iterations`, absent fields defaulting to 0. -/
def entryMetrics (e : GoogleEntry) : List (String × JVal) :=
  [("real_time", e.real_time.getD (.num 0)),
   ("cpu_time", e.cpu_time.getD (.num 0)),
   ("iterations", e.iterations.getD (.num 0))]

/-- The inner loop over `data['benchmarks']` (lines 151–161): per entry,
`add_measurement` then `check_regression`, extending the accumulated findings.
An exception (a missing `name` key, or `ZeroDivisionError` from
`check_regression`) stops the loop; effects of completed entries persist. -/
def processGoogle (db : DB) (commit : String) (threshold : ℚ) :
    List GoogleEntry → DB × List Finding × Option String
  | [] => (db, [], none)
  | e :: rest =>
    match e.name with
    | none => (db, [], some "KeyError: name")
    | some test =>
      let m := entryMetrics e
      let db1 := add_measurement db test commit m
      match check_regression db1 test m threshold with
      | .error err => (db1, [], some err)
      | .ok fs =>
        match processGoogle db1 commit threshold rest with
        | (db2, fs2, err) => (db2, fs ++ fs2, err)

/-- The body of the `for json_file in new_files` loop (lines 144–173) for one
artifact: returns the database after the artifact, the findings it contributed
to `all_regressions`, and the diagnostic lines printed to stderr.  Every
exception is caught by the `except` clause and logged as
`Error processing file: e`; the loop then continues. -/
def processOne (db : DB) (commit : String) (threshold : ℚ) (a : Artifact) :
    DB × List Finding × List String :=
  match a.shape with
  | .parseFailure msg => (db, [], ["Error processing " ++ a.path ++ ": " ++ msg])
  | .googleBench es =>
    match processGoogle db commit threshold es with
    | (db1, fs, none) => (db1, fs, [])
    | (db1, fs, some e) => (db1, fs, ["Error processing " ++ a.path ++ ": " ++ e])
  | .custom tn metrics =>
    let test := tn.getD a.stem
    let db1 := add_measurement db test commit metrics
    match check_regression db1 test metrics threshold with
    | .error e => (db1, [], ["Error processing " ++ a.path ++ ": " ++ e])
    | .ok fs => (db1, fs, [])
  | .customBadMetrics tn msg =>
    (add_measurement db (tn.getD a.stem) commit [], [],
     ["Error processing " ++ a.path ++ ": " ++ msg])

/-- The full artifact loop: thread the database through the artifacts,
concatenating findings and diagnostics in order. -/
def processAll (db : DB) (commit : String) (threshold : ℚ) :
    List Artifact → DB × List Finding × List String
  | [] => (db, [], [])
  | a :: rest =>
    match processOne db commit threshold a with
    | (db1, fs1, es1) =>
      match processAll db1 commit threshold rest with
      | (db2, fs2, es2) => (db2, fs1 ++ fs2, es1 ++ es2)

/-- The observable outcome of one run of `main`: the exit code, the report file
content (`none` when `generate_report` was never called, so no file was
written), the warnings printed to stdout, the diagnostics printed to stderr,
the accumulated findings, and the final database. -/
structure MainResult where
  exitCode : Nat
  report : Option String
  warnings : List String
  diagnostics : List String
  findings : List Finding
  finalDB : DB
deriving DecidableEq

/-- `main` (lines 123–184) after argument parsing and globbing, over the parsed
artifacts: with no matching files, print a warning and return 0 before any
report is written; otherwise process every artifact, write the report, and
return 1 exactly when findings accumulated. -/
def runMain (db : DB) (globArg commit : String) (threshold : ℚ)
    (files : List Artifact) : MainResult :=
  if files.isEmpty then
    { exitCode := 0, report := none
      warnings := ["Warning: No benchmark files found matching " ++ globArg]
      diagnostics := [], findings := [], finalDB := db }
  else
    match processAll db commit threshold files with
    | (db1, fs, es) =>
      { exitCode := if fs.isEmpty then 0 else 1
        report := some (generate_report fs)
        warnings := [], diagnostics := es, findings := fs, finalDB := db1 }

/-- C2: the baseline of a non-empty sequence is its statistical median with
even counts averaging the two middle values: `[10, 12, 11, 9, 13] ↦ 11`,
`[5, 7] ↦ 6`, a singleton yields its element, duplicates are not deduplicated
(`[2, 2, 4] ↦ 2`, not the deduplicated `3`), and the empty sequence yields
none. -/
theorem C2_baseline_is_median :
    baselineOf [10, 12, 11, 9, 13] = some 11
    ∧ baselineOf [5, 7] = some 6
    ∧ (∀ x : ℚ, baselineOf [x] = some x)
    ∧ baselineOf [2, 2, 4] = some 2
    ∧ baselineOf ([] : List ℚ) = none := by
  refine ⟨by decide, by decide, fun x => ?_, by decide, by decide⟩
  simp [baselineOf, median, List.insertionSort, List.orderedInsert]

/-- C4: the claim says classification with baseline 0 never divides by zero and
terminates normally for every new value; the code instead raises
`ZeroDivisionError` computing `(new_value - baseline) / baseline` whenever
`new_value > 0`.  First conjunct: the single-metric classification at
baseline 0, new value 1, threshold 0.05.  Second conjunct: the same failure
reached end to end through the store (history `[0, 0, 0]` plus the ingested
`1` has median baseline 0). -/
theorem C4_division_by_zero_at_zero_baseline :
    classifyOne "t" "m" 0 1 (1/20) = .error "ZeroDivisionError"
    ∧ check_regression
        (add_measurement
          (add_measurement
            (add_measurement
              (add_measurement initDB "t" "c1" [("m", JVal.num 0)])
              "t" "c2" [("m", JVal.num 0)])
            "t" "c3" [("m", JVal.num 0)])
          "t" "HEAD" [("m", JVal.num 1)])
        "t" [("m", JVal.num 1)] (1/20) = .error "ZeroDivisionError" := by
  exact ⟨by decide, by decide⟩

/-- C5 counterexample: the claim says an empty-glob run writes the success
marker to the output destination; in the code `main` returns 0 before
`generate_report` is ever called, so no report is written at all
(`report = none`). -/
theorem C5_counterexample :
    (runMain initDB "results/*.json" "HEAD" (1/20) []).report = none := rfl

/-- C5 (amended): when the glob matches zero artifacts the run warns and exits
with code 0, but no report file is written (the success marker never appears at
the output destination). -/
theorem C5_empty_glob_amended (db : DB) (globArg commit : String) (θ : ℚ) :
    runMain db globArg commit θ [] =
      { exitCode := 0, report := none
        warnings := ["Warning: No benchmark files found matching " ++ globArg]
        diagnostics := [], findings := [], finalDB := db } := rfl

/-- C1 counterexample: the claim says any `new_value < baseline` (an
improvement) never produces a finding; with baseline -10 and threshold 0.05 the
improved value -10.2 < -10 still satisfies `new_value > baseline * 1.05 = -10.5`
and is flagged (with delta +2%). -/
theorem C1_counterexample :
    (-102/10 : ℚ) < -10
    ∧ classifyOne "t" "m" (-10) (-102/10) (1/20)
        = .ok (some ⟨"t", "m", -10, -102/10, 2⟩) := by
  exact ⟨by decide, by decide⟩

/-- C1 (amended): for a positive baseline and nonnegative threshold the
classifier flags a regression iff `new_value > baseline * (1 + threshold)`,
reporting delta `(new_value - baseline) / baseline * 100`; in particular with
baseline 100 and threshold 0.05, 105.0 yields no finding, 105.01 yields a
finding with delta 5.01, and improvements are never flagged.  (Without the
positivity restriction the claim fails: baseline 0 raises a division error and
a negative baseline can flag an improvement.) -/
theorem C1_threshold_classification (test metric : String) (b v θ : ℚ)
    (hb : 0 < b) (hθ : 0 ≤ θ) :
    (classifyOne test metric b v θ
        = .ok (some ⟨test, metric, b, v, (v - b) / b * 100⟩) ↔ v > b * (1 + θ))
    ∧ (v < b → classifyOne test metric b v θ = .ok none)
    ∧ classifyOne "t" "m" 100 105 (1/20) = .ok none
    ∧ classifyOne "t" "m" 100 (10501/100) (1/20)
        = .ok (some ⟨"t", "m", 100, 10501/100, 501/100⟩) := by
  have hbne : b ≠ 0 := ne_of_gt hb
  refine ⟨?_, ?_, by decide, by decide⟩
  · by_cases h : v > b * (1 + θ)
    · simp [classifyOne, h, hbne]
    · simp [classifyOne, h]
  · intro hv
    have hle : ¬ v > b * (1 + θ) := by
      have h1 : b ≤ b * (1 + θ) := by nlinarith
      exact not_lt.2 (le_trans (le_of_lt hv) h1)
    simp [classifyOne, hle]

/-- Witness for `C1_threshold_classification`: baseline 100, new value 120,
threshold 0.05 produces the finding with delta +20%. -/
theorem C1_threshold_classification_witness :
    classifyOne "t" "m" 100 120 (1/20)
      = .ok (some ⟨"t", "m", 100, 120, (120 - 100) / 100 * 100⟩) :=
  ((C1_threshold_classification "t" "m" 100 120 (1/20)
      (by norm_num) (by norm_num)).1).mpr (by norm_num)

/-- C9: rendering an empty findings list writes the fixed success marker;
rendering a non-empty list writes the header, one table row per finding in
accumulation order — baseline and new value to 3 decimal places, the delta to 1
decimal place behind a literal `+` sign — and then the literal failure marker
token.  The last conjunct pins the concrete byte-for-byte rendering of a
two-finding report. -/
theorem C9_report_rendering :
    generate_report [] = "# ✅ No Performance Regressions Detected\n"
    ∧ (∀ fs : List Finding, fs ≠ [] →
        generate_report fs
          = reportHeader ++ String.join (fs.map reportRow) ++ "\n**REGRESSION**")
    ∧ generate_report [⟨"A", "m1", 100, 120, 20⟩, ⟨"B", "m2", 10, 21, 110⟩]
        = "# ❌ Performance Regressions Detected\n\n"
          ++ "| Test | Metric | Baseline | New | Regression |\n"
          ++ "|------|--------|----------|-----|------------|\n"
          ++ "| A | m1 | 100.000 | 120.000 | +20.0% |\n"
          ++ "| B | m2 | 10.000 | 21.000 | +110.0% |\n"
          ++ "\n**REGRESSION**" := by
  refine ⟨by decide, fun fs h => ?_, by decide⟩
  simp [generate_report, failureMarker, List.isEmpty_iff, h]

/-- Witness for `C9_report_rendering`: the one-finding report is header, one
row, failure marker. -/
theorem C9_report_rendering_witness :
    generate_report [⟨"t", "m", 1, 2, 100⟩]
      = reportHeader ++ String.join ([(⟨"t", "m", 1, 2, 100⟩ : Finding)].map reportRow)
          ++ "\n**REGRESSION**" :=
  C9_report_rendering.2.1 [⟨"t", "m", 1, 2, 100⟩] (by simp)

/-- C10: boolean payload values are treated as numeric: recording stores a
Metric Sample of 1.0 (true) or 0.0 (false) rather than dropping the entry, and
such a sample participates in classification like any number.  The last
conjunct runs the full flow: with one prior sample 0.4, ingesting the payload
`{m: true}` classifies the new value as 1.0 against median baseline 0.7 and
flags a +42.857...% regression and exit code 1. -/
theorem C10_booleans_are_numeric :
    (∀ (db : DB) (t c m : String) (b : Bool),
      (add_measurement db t c [(m, JVal.bool b)]).metrics
        = db.metrics ++ [⟨db.nextId, m, if b then 1 else 0⟩])
    ∧ (JVal.bool true).isNumeric = true
    ∧ (JVal.bool false).isNumeric = true
    ∧ (runMain (add_measurement initDB "t" "c1" [("m", JVal.num (2/5))])
        "bench/*.json" "HEAD" (1/20)
        [⟨"b.json", "b", .custom (some "t") [("m", JVal.bool true)]⟩]).findings
        = [⟨"t", "m", 7/10, 1, 300/7⟩]
    ∧ (runMain (add_measurement initDB "t" "c1" [("m", JVal.num (2/5))])
        "bench/*.json" "HEAD" (1/20)
        [⟨"b.json", "b", .custom (some "t") [("m", JVal.bool true)]⟩]).exitCode = 1 := by
  refine ⟨fun db t c m b => ?_, by decide, by decide, by decide, by decide⟩
  simp [add_measurement, numericSamples, JVal.isNumeric, JVal.toRealVal]

/-- A Google-format artifact whose entries complete without error up to an
entry with no `name` key: the completed entries' store writes and findings
persist, the `KeyError` stops the loop, and the remaining entries are skipped. -/
theorem processGoogle_append_keyerror (commit : String) (θ : ℚ)
    (es' : List GoogleEntry) (rt ct it : Option JVal) :
    ∀ (es : List GoogleEntry) (db db' : DB) (fs : List Finding),
      processGoogle db commit θ es = (db', fs, none) →
      processGoogle db commit θ (es ++ ⟨none, rt, ct, it⟩ :: es')
        = (db', fs, some "KeyError: name") := by
  intro es
  induction es with
  | nil =>
    intro db db' fs h
    simp only [processGoogle, Prod.mk.injEq] at h
    obtain ⟨rfl, rfl, -⟩ := h
    simp [processGoogle]
  | cons e es ih =>
    intro db db' fs h
    obtain ⟨ename, ert, ect, eit⟩ := e
    cases ename with
    | none => simp [processGoogle] at h
    | some test =>
      rcases hc : check_regression
          (add_measurement db test commit
            (entryMetrics ⟨some test, ert, ect, eit⟩))
          test (entryMetrics ⟨some test, ert, ect, eit⟩) θ with err | fse
      · simp only [processGoogle, hc] at h
        simp at h
      · rcases hg : processGoogle (add_measurement db test commit
            (entryMetrics ⟨some test, ert, ect, eit⟩)) commit θ es
          with ⟨db2, fs2, errv⟩
        simp only [processGoogle, hc, hg, Prod.mk.injEq] at h
        obtain ⟨h1, h2, h3⟩ := h
        subst h3
        have hrec := ih _ _ _ hg
        simp only [List.cons_append, processGoogle, hc]
        simp [hrec, h1, h2]

/-- C8: a parse or processing failure on one artifact is caught and logged to
the diagnostic stream and the artifact is given up, while all remaining
artifacts are still processed and their findings still accumulate; the failure
never aborts the run.  Conjuncts: (i) the batch fold always continues past any
artifact, failing or not, threading the store and accumulating findings and
diagnostics in order; (ii) a parse failure leaves the store untouched and adds
one diagnostic line; (iii) a custom artifact whose `metrics` value is not a
dict fails after the benchmarks upsert — the upsert persists, no samples and no
findings are produced, one diagnostic line is added; (iv) a Google-format
entry without a `name` key fails mid-artifact — the completed entries' store
writes and findings persist, the rest of the artifact is skipped, one
diagnostic line is added; (v) a non-empty run always ends with the report
written, whatever failures occurred. -/
theorem C8_failure_isolation (commit : String) (θ : ℚ) :
    (∀ (db : DB) (a : Artifact) (as bs : List Artifact),
      processAll db commit θ (as ++ a :: bs)
        = (let r1 := processAll db commit θ as
           let ra := processOne r1.1 commit θ a
           let r2 := processAll ra.1 commit θ bs
           (r2.1, r1.2.1 ++ ra.2.1 ++ r2.2.1, r1.2.2 ++ ra.2.2 ++ r2.2.2)))
    ∧ (∀ (db : DB) (path stem msg : String),
      processOne db commit θ ⟨path, stem, .parseFailure msg⟩
        = (db, [], ["Error processing " ++ path ++ ": " ++ msg]))
    ∧ (∀ (db : DB) (path stem msg : String) (tn : Option String),
      processOne db commit θ ⟨path, stem, .customBadMetrics tn msg⟩
        = (add_measurement db (tn.getD stem) commit [], [],
           ["Error processing " ++ path ++ ": " ++ msg]))
    ∧ (∀ (db db' : DB) (fs : List Finding) (path stem : String)
        (es es' : List GoogleEntry) (rt ct it : Option JVal),
      processGoogle db commit θ es = (db', fs, none) →
      processOne db commit θ
          ⟨path, stem, .googleBench (es ++ ⟨none, rt, ct, it⟩ :: es')⟩
        = (db', fs, ["Error processing " ++ path ++ ": KeyError: name"]))
    ∧ (∀ (db : DB) (globArg : String) (files : List Artifact), files ≠ [] →
      (runMain db globArg commit θ files).report
        = some (generate_report (runMain db globArg commit θ files).findings)) := by
  refine ⟨?_, fun db path stem msg => rfl, fun db path stem msg tn => rfl, ?_, ?_⟩
  · intro db a as bs
    induction as generalizing db with
    | nil =>
      rcases h : processOne db commit θ a with ⟨d1, f1, e1⟩
      rcases h2 : processAll d1 commit θ bs with ⟨d2, f2, e2⟩
      simp [processAll, h, h2]
    | cons x as ih =>
      simp only [List.cons_append, processAll]
      rcases h : processOne db commit θ x with ⟨d1, f1, e1⟩
      simp [h, ih d1, List.append_assoc]
  · intro db db' fs path stem es es' rt ct it h
    have hg := processGoogle_append_keyerror commit θ es' rt ct it es db db' fs h
    simp only [processOne, hg]
    rw [String.append_assoc]
    rfl
  · intro db globArg files h
    have hne : files.isEmpty = false := by
      cases files with
      | nil => exact absurd rfl h
      | cons x xs => rfl
    rcases hp : processAll db commit θ files with ⟨d, f, e⟩
    simp [runMain, hne, hp]

/-- Witness for `C8_failure_isolation`: a Google artifact whose first entry
lacks `name` is logged and contributes nothing, discharging conjunct (iv)'s
hypothesis at the empty completed prefix. -/
theorem C8_failure_isolation_witness :
    processOne initDB "HEAD" (1/20)
      ⟨"a.json", "a", .googleBench [⟨none, none, none, none⟩]⟩
      = (initDB, [], ["Error processing a.json: KeyError: name"]) := by
  have h := (C8_failure_isolation "HEAD" (1/20)).2.2.2.1 initDB initDB []
    "a.json" "a" [] [] none none none rfl
  simpa using h

instance : IsTotal (Nat × ℚ) descTs :=
  ⟨fun a b => (Nat.le_total b.1 a.1).imp id id⟩

instance : IsTrans (Nat × ℚ) descTs :=
  ⟨fun _ _ _ hab hbc => Nat.le_trans hbc hab⟩

/-- A six-sample store for `C7_history_window`: test `t`, metric `m`, values
100, 1, 2, 3, 4, 5 in ingestion order across six commits. -/
def sixSampleDB : DB :=
  add_measurement
    (add_measurement
      (add_measurement
        (add_measurement
          (add_measurement
            (add_measurement initDB "t" "c1" [("m", JVal.num 100)])
            "t" "c2" [("m", JVal.num 1)])
          "t" "c3" [("m", JVal.num 2)])
        "t" "c4" [("m", JVal.num 3)])
      "t" "c5" [("m", JVal.num 4)])
    "t" "c6" [("m", JVal.num 5)]

/-- C7: the history query returns at most `window` rows, ordered by descending
timestamp (most recent first); every returned row's timestamp dominates every
matching row left out; an empty match yields the empty sequence (never an
error).  The last conjunct shows windowing reaching the baseline: with six
samples 100, 1, 2, 3, 4, 5 (oldest first) the default 5-sample baseline is the
median 3 of the five most recent — the median over all six would be 3.5. -/
theorem C7_history_window (db : DB) (t m : String) (w : Nat) :
    (historyRows db t m w).length ≤ w
    ∧ (historyRows db t m w).Pairwise descTs
    ∧ (joinRows db t m = [] → historyRows db t m w = [])
    ∧ (∀ p ∈ historyRows db t m w,
        ∀ q ∈ ((joinRows db t m).insertionSort descTs).drop w, q.1 ≤ p.1)
    ∧ get_baseline sixSampleDB "t" "m" 5 = some 3 := by
  have hsorted : ((joinRows db t m).insertionSort descTs).Pairwise descTs :=
    List.sorted_insertionSort descTs (joinRows db t m)
  refine ⟨?_, ?_, ?_, ?_, by decide⟩
  · simp [historyRows]
  · exact hsorted.sublist (List.take_sublist _ _)
  · intro h
    simp [historyRows, h, List.insertionSort]
  · intro p hp q hq
    have hsplit : List.Pairwise descTs
        (((joinRows db t m).insertionSort descTs).take w
          ++ ((joinRows db t m).insertionSort descTs).drop w) := by
      rw [List.take_append_drop]
      exact hsorted
    exact (List.pairwise_append.mp hsplit).2.2 p hp q hq

/-- Witness for `C7_history_window`: on the fresh store no samples match, and
the history query returns the empty sequence. -/
theorem C7_history_window_witness : historyRows initDB "t" "m" 5 = [] :=
  (C7_history_window initDB "t" "m" 5).2.2.1 rfl

/-- Well-formedness of the store, maintained by every `add_measurement`: all
rowids live below the allocator (SQLite hands out `max rowid + 1`, so deleted
rowids are never reused), metric rows only reference rowids already handed out,
and the UNIQUE(test_name, commit_hash) constraint holds. -/
structure WF (db : DB) : Prop where
  bench_id_lt : ∀ b ∈ db.benchmarks, b.id < db.nextId
  metric_id_lt : ∀ r ∈ db.metrics, r.benchmark_id < db.nextId
  unique_pairs : db.benchmarks.Pairwise
    (fun a b => ¬(a.test_name = b.test_name ∧ a.commit_hash = b.commit_hash))

theorem WF_initDB : WF initDB :=
  ⟨by simp [initDB], by simp [initDB], by simp [initDB]⟩

theorem WF_add (db : DB) (t c : String) (p : List (String × JVal)) (h : WF db) :
    WF (add_measurement db t c p) := by
  refine ⟨?_, ?_, ?_⟩
  · intro b hb
    simp only [add_measurement, List.mem_append, List.mem_singleton] at hb
    rcases hb with hb | hb
    · exact Nat.lt_succ_of_lt (h.bench_id_lt b (List.mem_of_mem_filter hb))
    · subst hb; exact Nat.lt_succ_self _
  · intro r hr
    simp only [add_measurement, List.mem_append] at hr
    rcases hr with hr | hr
    · exact Nat.lt_succ_of_lt (h.metric_id_lt r hr)
    · rcases List.mem_map.mp hr with ⟨x, _, hx⟩
      rw [← hx]
      exact Nat.lt_succ_self _
  · simp only [add_measurement]
    rw [List.pairwise_append]
    refine ⟨h.unique_pairs.sublist (List.filter_sublist _), List.pairwise_singleton _ _, ?_⟩
    intro a ha b hb hcontra
    rcases List.mem_singleton.mp hb with rfl
    have hfail := (List.mem_filter.mp ha).2
    rw [hcontra.1, hcontra.2] at hfail
    simp at hfail

/-- On a well-formed store with no matching samples for `(t, m)`, ingesting a
single numeric sample makes that sample the entire joined history: the fresh
rowid joins only the fresh benchmark row. -/
theorem joinRows_add_single (db : DB) (t c m : String) (v : ℚ)
    (hWF : WF db) (hnone : joinRows db t m = []) :
    joinRows (add_measurement db t c [(m, JVal.num v)]) t m = [(db.clock, v)] := by
  have hcomp : ∀ mr ∈ db.metrics.filter (fun r => r.metric_name == m),
      db.benchmarks.filter
        (fun b => b.id == mr.benchmark_id && b.test_name == t) = [] := by
    intro mr hmr
    exact List.map_eq_nil_iff.mp (List.flatMap_eq_nil_iff.mp hnone mr hmr)
  set q : MetricRow → BenchRow → Bool :=
    fun mr b => b.id == mr.benchmark_id && b.test_name == t with hq
  set kept : List BenchRow := db.benchmarks.filter
    (fun r => !(r.test_name == t && r.commit_hash == c)) with hkeptdef
  set row : BenchRow := ⟨db.nextId, t, c, db.clock, [(m, JVal.num v)]⟩ with hrowdef
  set newMR : MetricRow := ⟨db.nextId, m, v⟩ with hnewdef
  have hmetrics : (add_measurement db t c [(m, JVal.num v)]).metrics
      = db.metrics ++ [newMR] := rfl
  have hbench : (add_measurement db t c [(m, JVal.num v)]).benchmarks
      = kept ++ [row] := rfl
  rw [joinRows, hmetrics, hbench, List.filter_append, List.flatMap_append]
  have h1 : (db.metrics.filter (fun r => r.metric_name == m)).flatMap
      (fun mr => ((kept ++ [row]).filter (q mr)).map
        (fun b => (b.timestamp, mr.value))) = [] := by
    rw [List.flatMap_eq_nil_iff]
    intro mr hmr
    rw [List.map_eq_nil_iff, List.filter_append]
    have hk : kept.filter (q mr) = [] := by
      have hsub := (List.filter_sublist (p :=
          fun r => !(r.test_name == t && r.commit_hash == c)) db.benchmarks).filter (q mr)
      rw [← hkeptdef, hcomp mr hmr] at hsub
      exact List.sublist_nil.mp hsub
    have hr : [row].filter (q mr) = [] := by
      have hlt := hWF.metric_id_lt mr (List.mem_of_mem_filter hmr)
      simp [hq, hrowdef, Nat.ne_of_gt hlt]
    rw [hk, hr]
    rfl
  have h2 : ([newMR].filter (fun r => r.metric_name == m)).flatMap
      (fun mr => ((kept ++ [row]).filter (q mr)).map
        (fun b => (b.timestamp, mr.value))) = [(db.clock, v)] := by
    have hself : [newMR].filter (fun r => r.metric_name == m) = [newMR] := by
      simp [hnewdef]
    rw [hself]
    have hk : kept.filter (q newMR) = [] := by
      rw [List.filter_eq_nil_iff]
      intro b hb
      have hlt := hWF.bench_id_lt b (List.mem_of_mem_filter hb)
      simp [hq, hnewdef, Nat.ne_of_lt hlt]
    have hr : [row].filter (q newMR) = [row] := by
      simp [hq, hrowdef, hnewdef]
    simp [List.filter_append, hk, hr, hrowdef, hnewdef]
  rw [h1, h2]
  rfl

/-- C6 counterexample: a metric with zero prior history CAN produce a finding.
The flow ingests before classifying, so the just-written sample becomes its own
baseline; with new value -1 and threshold 0.05 the check `-1 > -1 * 1.05` holds
and the run reports a finding (delta 0%) and exits 1. -/
theorem C6_counterexample :
    joinRows initDB "t" "m" = []
    ∧ (runMain initDB "bench/*.json" "HEAD" (1/20)
        [⟨"a.json", "a", .custom (some "t") [("m", JVal.num (-1))]⟩]).findings
        = [⟨"t", "m", -1, -1, 0⟩]
    ∧ (runMain initDB "bench/*.json" "HEAD" (1/20)
        [⟨"a.json", "a", .custom (some "t") [("m", JVal.num (-1))]⟩]).exitCode
        = 1 := by
  exact ⟨by decide, by decide, by decide⟩

/-- C6 (amended): a metric with zero prior history and a NONNEGATIVE new value
produces no finding under a nonnegative threshold: after ingestion the sample
is its own baseline `v`, and `v > v * (1 + threshold)` fails.  (For negative
new values the claim is false — see the counterexample.) -/
theorem C6_no_history_no_finding (db : DB) (t c m : String) (v θ : ℚ)
    (hWF : WF db) (hnone : joinRows db t m = []) (hv : 0 ≤ v) (hθ : 0 ≤ θ) :
    check_regression (add_measurement db t c [(m, JVal.num v)]) t
      [(m, JVal.num v)] θ = .ok [] := by
  have hjoin := joinRows_add_single db t c m v hWF hnone
  have hhist : historyRows (add_measurement db t c [(m, JVal.num v)]) t m 5
      = [(db.clock, v)] := by
    rw [historyRows, hjoin]
    simp [List.insertionSort]
  have hbase : get_baseline (add_measurement db t c [(m, JVal.num v)]) t m 5
      = some v := by
    rw [get_baseline, hhist]
    simp [baselineOf, median, List.insertionSort, List.orderedInsert]
  have hnotgt : ¬ (v > v * (1 + θ)) := by nlinarith
  simp [check_regression, checkLoop, JVal.isNumeric, hbase, JVal.toRealVal,
    classifyOne, hnotgt]

/-- Witness for `C6_no_history_no_finding`: fresh store, value 5, threshold
0.05 — no finding. -/
theorem C6_no_history_no_finding_witness :
    check_regression (add_measurement initDB "t" "c" [("m", JVal.num 5)]) "t"
      [("m", JVal.num 5)] (1/20) = .ok [] :=
  C6_no_history_no_finding initDB "t" "c" "m" 5 (1/20) WF_initDB rfl
    (by norm_num) (by norm_num)

/-- Folding any sequence of `record` operations preserves store
well-formedness. -/
theorem WF_foldl (ops : List (String × String × List (String × JVal)))
    (db : DB) (h : WF db) :
    WF (ops.foldl (fun d o => add_measurement d o.1 o.2.1 o.2.2) db) := by
  induction ops generalizing db with
  | nil => exact h
  | cons o ops ih => exact ih _ (WF_add db o.1 o.2.1 o.2.2 h)

/-- Filtering for a pair right after filtering it away yields nothing. -/
theorem filter_pair_of_filter_not (t c : String) (l : List BenchRow) :
    (l.filter (fun r => !(r.test_name == t && r.commit_hash == c))).filter
      (fun r => r.test_name == t && r.commit_hash == c) = [] := by
  rw [List.filter_filter]
  simp

/-- C3: recording the same `(test, commit)` pair twice leaves exactly one
benchmark record for the pair, carrying the second write's timestamp and
metrics payload; the first write's rowid disappears from the benchmarks table
(so the first write's metric samples are orphaned and invisible to the history
join); the metric samples attached to the surviving record are exactly the
second write's; and any sequence of record operations preserves the invariant
that at most one record exists per `(test, commit)` pair. -/
theorem C3_upsert_unique (db : DB) (t c : String)
    (m1 m2 : List (String × JVal)) (hWF : WF db) :
    ((add_measurement (add_measurement db t c m1) t c m2).benchmarks.filter
        (fun r => r.test_name == t && r.commit_hash == c)
      = [⟨db.nextId + 1, t, c, db.clock + 1, m2⟩])
    ∧ (∀ b ∈ (add_measurement (add_measurement db t c m1) t c m2).benchmarks,
        b.id ≠ db.nextId)
    ∧ ((add_measurement (add_measurement db t c m1) t c m2).metrics.filter
        (fun r => r.benchmark_id == db.nextId + 1)
      = numericSamples (db.nextId + 1) m2)
    ∧ (∀ ops : List (String × String × List (String × JVal)),
        (ops.foldl (fun d o => add_measurement d o.1 o.2.1 o.2.2)
            db).benchmarks.Pairwise
          (fun a b => ¬(a.test_name = b.test_name ∧ a.commit_hash = b.commit_hash))) :=
  by
  have hb2 : (add_measurement (add_measurement db t c m1) t c m2).benchmarks
      = ((add_measurement db t c m1).benchmarks.filter
          (fun r => !(r.test_name == t && r.commit_hash == c)))
        ++ [⟨db.nextId + 1, t, c, db.clock + 1, m2⟩] := rfl
  refine ⟨?_, ?_, ?_, ?_⟩
  · rw [hb2, List.filter_append, filter_pair_of_filter_not]
    simp
  · intro b hb
    rw [hb2, List.mem_append] at hb
    rcases hb with hb | hb
    · have hmem := List.mem_of_mem_filter hb
      have : (add_measurement db t c m1).benchmarks
          = (db.benchmarks.filter
              (fun r => !(r.test_name == t && r.commit_hash == c)))
            ++ [⟨db.nextId, t, c, db.clock, m1⟩] := rfl
      rw [this, List.mem_append] at hmem
      rcases hmem with hmem | hmem
      · exact Nat.ne_of_lt (hWF.bench_id_lt b (List.mem_of_mem_filter hmem))
      · rcases List.mem_singleton.mp hmem with rfl
        have hkeep := (List.mem_filter.mp hb).2
        simp at hkeep
    · rcases List.mem_singleton.mp hb with rfl
      simp
  · have hm2 : (add_measurement (add_measurement db t c m1) t c m2).metrics
        = db.metrics ++ numericSamples db.nextId m1
          ++ numericSamples (db.nextId + 1) m2 := rfl
    rw [hm2, List.filter_append, List.filter_append]
    have h1 : db.metrics.filter (fun r => r.benchmark_id == db.nextId + 1) = [] := by
      rw [List.filter_eq_nil_iff]
      intro r hr
      have := hWF.metric_id_lt r hr
      simp
      omega
    have h2 : (numericSamples db.nextId m1).filter
        (fun r => r.benchmark_id == db.nextId + 1) = [] := by
      rw [List.filter_eq_nil_iff]
      intro r hr
      rcases List.mem_map.mp hr with ⟨x, _, hx⟩
      rw [← hx]
      simp
    have h3 : (numericSamples (db.nextId + 1) m2).filter
        (fun r => r.benchmark_id == db.nextId + 1)
        = numericSamples (db.nextId + 1) m2 := by
      rw [List.filter_eq_self]
      intro r hr
      rcases List.mem_map.mp hr with ⟨x, _, hx⟩
      rw [← hx]
      simp
    rw [h1, h2, h3]
    rfl
  · intro ops
    exact (WF_foldl ops db hWF).unique_pairs

/-- Witness for `C3_upsert_unique`: on a fresh store, recording `("t", "c")`
twice leaves exactly the second record (rowid 2, timestamp 1, payload
`{m: 2}`). -/
theorem C3_upsert_unique_witness :
    (add_measurement (add_measurement initDB "t" "c" [("m", JVal.num 1)]) "t" "c"
        [("m", JVal.num 2)]).benchmarks.filter
      (fun r => r.test_name == "t" && r.commit_hash == "c")
      = [⟨2, "t", "c", 1, [("m", JVal.num 2)]⟩] :=
  (C3_upsert_unique initDB "t" "c" [("m", JVal.num 1)] [("m", JVal.num 2)]
    WF_initDB).1
